import Mathlib

/-!
# Verification of the CenterNet pipeline orchestrator

Shallow embedding of `src/networks/classes/centernet/Pipeline.py` and
`src/networks/classes/centernet/models/ModelCenterNet.py`, with theorems
settling the claims about the weight-folder cleanup, step counts, decay
parsing, checkpoint restoring, the prediction toggles, configuration
merging, category counts and empty-set evaluation.
-/

set_option maxRecDepth 4096

/-- Python exceptions that the embedded code can raise. -/
inductive PyErr where
  | systemExit (code : Nat)
  | keyError (key : String)
  | valueError (msg : String)
  | assertionError (msg : String)
  | typeError (msg : String)
deriving DecidableEq, Repr

/-- Decidable equality for embedded run results. -/
instance {ε α : Type} [DecidableEq ε] [DecidableEq α] :
    DecidableEq (Except ε α) := fun a b =>
  match a, b with
  | .error e1, .error e2 =>
    if h : e1 = e2 then .isTrue (by rw [h]) else
      .isFalse (by intro hc; cases hc; exact h rfl)
  | .error _, .ok _ => .isFalse (by intro hc; cases hc)
  | .ok _, .error _ => .isFalse (by intro hc; cases hc)
  | .ok v1, .ok v2 =>
    if h : v1 = v2 then .isTrue (by rw [h]) else
      .isFalse (by intro hc; cases hc; exact h rfl)

/-- State of the weights folder on disk: either the directory does not
exist, or it exists and holds the given entry names
(what `os.listdir` would return). -/
inductive FolderState where
  | missing
  | dir (entries : List String)
deriving DecidableEq, Repr

/-- `os.listdir`-style view: entry names of the folder, `[]` when the
directory does not exist (as `glob.glob` yields `[]` there). -/
def FolderState.entries : FolderState → List String
  | .missing => []
  | .dir es => es

/-- Whether the folder is an existing, non-empty directory
(`os.path.isdir(folder)` and `len(os.listdir(folder))` truthy). -/
def FolderState.nonemptyDir : FolderState → Bool
  | .missing => false
  | .dir es => !es.isEmpty

/-- Outcome of `CenterNetPipeline.__check_no_weights_in_run_folder`
(Pipeline.py lines 38-57): the folder state after the call, whether the
interactive prompt was shown, whether `shutil.rmtree` ran, and the
`sys.exit` code if the run was aborted. -/
structure CheckOutcome where
  folder : FolderState
  prompted : Bool
  deleted : Bool
  exited : Option Nat
deriving DecidableEq, Repr

/-- `CenterNetPipeline.__check_no_weights_in_run_folder` (Pipeline.py
lines 38-57): if the folder is an existing non-empty directory, prompt;
on an answer in `['y', 'Y', 'yes', 'ok']` remove the whole folder tree
(`shutil.rmtree(folder)`), otherwise `sys.exit(0)` without touching it. -/
def check_no_weights_in_run_folder (folder : FolderState) (user_input : String) :
    CheckOutcome :=
  match folder with
  | .missing => ⟨.missing, false, false, none⟩
  | .dir entries =>
    if entries.length ≠ 0 then
      if user_input ∈ (["y", "Y", "yes", "ok"] : List String) then
        ⟨.missing, true, true, none⟩
      else
        ⟨.dir entries, true, false, some 0⟩
    else
      ⟨.dir entries, false, false, none⟩

/-- Value of a digit list, most significant first. -/
def digitsToNat (cs : List Char) : Nat :=
  cs.foldl (fun a c => a * 10 + (c.toNat - 48)) 0

/-- Unsigned decimal integer: one or more digits. -/
def parseUnsignedInt (cs : List Char) : Option Nat :=
  if cs ≠ [] ∧ cs.all Char.isDigit then some (digitsToNat cs) else none

/-- Optionally signed decimal integer (used for a float exponent). -/
def parseSignedInt (cs : List Char) : Option Int :=
  match cs with
  | '+' :: rest => (parseUnsignedInt rest).map Int.ofNat
  | '-' :: rest => (parseUnsignedInt rest).map (fun n => -(n : Int))
  | _ => (parseUnsignedInt cs).map Int.ofNat

/-- Exact value of a parsed float: `mantissa * 10 ^ exp10`.  Decimal
strings are represented exactly, so no rounding is modelled; the
configuration decays this code base uses are short decimals, where the
binary double and the decimal agree for every claim at issue. -/
structure PyFloatVal where
  mantissa : Int
  exp10 : Int
deriving DecidableEq, Repr

/-- The rational number a `PyFloatVal` denotes. -/
def PyFloatVal.toRat (v : PyFloatVal) : ℚ :=
  (v.mantissa : ℚ) * (10 : ℚ) ^ v.exp10

/-- Unsigned decimal mantissa: digits, optionally with one decimal point,
with at least one digit overall (`1`, `1.`, `.5`, `0.01`). -/
def parseMantissa (cs : List Char) : Option PyFloatVal :=
  match cs.splitOn '.' with
  | [intPart] =>
    if intPart ≠ [] ∧ intPart.all Char.isDigit then
      some ⟨(digitsToNat intPart : Int), 0⟩
    else none
  | [intPart, fracPart] =>
    if (intPart ≠ [] ∨ fracPart ≠ []) ∧ intPart.all Char.isDigit ∧
        fracPart.all Char.isDigit then
      some ⟨(digitsToNat (intPart ++ fracPart) : Int), -(fracPart.length : Int)⟩
    else none
  | _ => none

/-- Leading and trailing whitespace removal on a character list. -/
def listTrim (cs : List Char) : List Char :=
  ((cs.dropWhile Char.isWhitespace).reverse.dropWhile Char.isWhitespace).reverse

/-- Model of Python `float(s)` on decimal literals: optional sign, decimal
mantissa, optional `e`/`E` exponent, surrounding whitespace stripped;
`none` models a raised `ValueError`. (Special spellings such as `inf`,
`nan` or underscore separators are not used by this code base and are
not modelled.) -/
def pyFloat (s : String) : Option PyFloatVal :=
  let t := listTrim s.data
  let (sgn, body) : Int × List Char :=
    match t with
    | '+' :: r => (1, r)
    | '-' :: r => (-1, r)
    | _ => (1, t)
  let lowered := body.map (fun c => if c = 'E' then 'e' else c)
  let mag : Option PyFloatVal :=
    match lowered.splitOn 'e' with
    | [m] => parseMantissa m
    | [m, ex] =>
      match parseMantissa m, parseSignedInt ex with
      | some mv, some e => some ⟨mv.mantissa, mv.exp10 + e⟩
      | _, _ => none
    | _ => none
  mag.map (fun v => ⟨sgn * v.mantissa, v.exp10⟩)

/-- `decay = float(model_params['decay'])` guarded by `except ValueError`
(Pipeline.py lines 177-180 and 318-321): a missing key raises `KeyError`
(not caught); a present but non-numeric value is a caught `ValueError`
and leaves `decay = None`. -/
def initDecay (decay_value : Option String) : Except PyErr (Option PyFloatVal) :=
  match decay_value with
  | none => .error (.keyError "decay")
  | some s =>
    match pyFloat s with
    | some v => .ok (some v)
    | none => .ok none

/-- `decay if decay else 0.0` (Pipeline.py lines 183 and 326): Python
truthiness sends both `None` and `0.0` to `0.0`. -/
def effectiveDecay (decay : Option PyFloatVal) : PyFloatVal :=
  match decay with
  | some v => if v.mantissa = 0 then ⟨0, 0⟩ else v
  | none => ⟨0, 0⟩

/-- `'0' + str(init_epoch) if init_epoch < 10 else str(init_epoch)`
(ModelCenterNet.py line 93). -/
def init_epoch_str (init_epoch : Nat) : String :=
  if init_epoch < 10 then "0" ++ toString init_epoch else toString init_epoch

/-- The glob pattern `'weights.{}-*.hdf5'.format(init_epoch_str)`
(ModelCenterNet.py line 95). -/
def weights_file_glob (init_epoch : Nat) : String :=
  "weights." ++ init_epoch_str init_epoch ++ "-*.hdf5"

/-- Whether a directory entry matches the glob `weights.<epoch>-*.hdf5`:
it has the literal head and tail of the pattern around an arbitrary
(possibly empty) middle. -/
def matches_weights_glob (init_epoch : Nat) (name : String) : Bool :=
  let hd := ("weights." ++ init_epoch_str init_epoch ++ "-").data
  let tl := (".hdf5").data
  hd.isPrefixOf name.data && tl.isSuffixOf name.data &&
    decide (hd.length + tl.length ≤ name.data.length)

/-- `ModelCenterNet.restore_weights` (ModelCenterNet.py lines 81-107):
glob the folder for `weights.<epoch>-*.hdf5`, assert a match exists,
take the first match's filename, assert the joined path is a regular
file, then load it. `entries` is the folder listing and `isFile` models
`os.path.isfile`. -/
def restore_weights (entries : List String) (isFile : String → Bool)
    (init_epoch : Nat) (weights_folder_path : String) : Except PyErr String :=
  let list_files := entries.filter (matches_weights_glob init_epoch)
  match list_files with
  | [] =>
    .error (.assertionError ("ERR: No weights file match provided name " ++
      weights_folder_path ++ "/" ++ weights_file_glob init_epoch))
  | restore_filename :: _ =>
    let restore_path := weights_folder_path ++ "/" ++ restore_filename
    if isFile restore_path then
      .ok restore_filename
    else
      .error (.assertionError ("ERR: Weight file in path " ++ restore_path ++
        " seems not to be a file"))

/-- The step-count expression used at every training / validation /
evaluation site: `int(set_size // batch_size) + 1` (Pipeline.py lines
225-226, 232-233, 373-374; ModelCenterNet.py lines 134-135). -/
def step_count (set_size batch_size : Nat) : Nat :=
  set_size / batch_size + 1

/-- `ModelCenterNet.evaluate` (ModelCenterNet.py lines 173-189): when
`evaluation_steps` is not `None` and equals `0`, warn and return `None`;
otherwise delegate to the framework's `model.evaluate`. The pair's
second component records whether the warning was emitted. -/
def evaluate {α : Type} (frameworkEval : Option Nat → α)
    (evaluation_steps : Option Nat) : Option α × Bool :=
  if evaluation_steps ≠ none ∧ evaluation_steps = some 0 then
    (none, true)
  else
    (some (frameworkEval evaluation_steps), false)

/-- Observable calls a pipeline stage makes, in order. -/
inductive Event where
  | promptUser
  | deleteFolder
  | buildModel (mode : String) (n_category : Nat)
  | compileModel (decay : PyFloatVal)
  | trainCall (training_steps validation_steps : Nat)
  | evaluateCall (steps : Nat)
  | logLosses (names : List String)
  | predictCall (which : String)
deriving DecidableEq, Repr

/-- The stage parameters the claims depend on, after the
`model_params.update(self.__dataset_params)` merge.  `decay` is `none`
when the `decay` key is absent from the merged dictionary. -/
structure ModelParams where
  train : Bool
  restore_weights : Bool
  predict_on_test : Bool
  show_prediction_examples : Bool
  regenerate_crops_train : Bool
  regenerate_crops_test : Bool
  initial_epoch : Nat
  epochs : Nat
  batch_size : Nat
  decay : Option String
deriving DecidableEq, Repr

/-- External world of a run: the weights folder at `weights_path`, the
interactive answer, `os.path.isfile`, the category vocabulary that
`PreprocessingDataset.generate_dataset` produces, the dataset sizes the
dataset classes report, and the crop lists `ImageCropper` returns. -/
structure Env where
  folder : FolderState
  user_input : String
  isFile : String → Bool
  dict_cat_gen : List (String × Nat)
  detection_ts_size : Nat
  detection_vs_size : Nat
  classification_ts_size : Nat
  classification_vs_size : Nat
  crops_regen_train : List (String × Nat)
  crops_loaded_train : List (String × Nat)
  crops_regen_test : List String
  crops_loaded_test : List String

/-- Keyword-call binding in Python: every provided keyword must name a
(required or optional) parameter, and every required parameter must be
provided; otherwise the call raises `TypeError`. -/
def kwargsBindOk (required optional provided : List String) : Bool :=
  provided.all (fun k => required.contains k || optional.contains k) &&
  required.all (fun k => provided.contains k)

/-- Required parameters of `ModelCenterNet.setup_callbacks`
(ModelCenterNet.py line 38): `weights_log_path`, `batch_size`, `lr`. -/
def setup_callbacks_required : List String :=
  ["weights_log_path", "batch_size", "lr"]

/-- Keywords `CenterNetPipeline` passes to `setup_callbacks`
(Pipeline.py lines 216-217 and 365-366). -/
def pipeline_setup_callbacks_kwargs : List String :=
  ["weights_log_path", "batch_size"]

/-- Required parameters of `ModelCenterNet.train` (ModelCenterNet.py
lines 109-116); `augmentation` alone has a default. -/
def train_required : List String :=
  ["dataset", "model", "init_epoch", "epochs", "batch_size", "callbacks"]

/-- Keywords `CenterNetPipeline` passes to `ModelCenterNet.train`
(Pipeline.py lines 220-227 and 368-375). -/
def pipeline_train_kwargs : List String :=
  ["model", "init_epoch", "epochs", "training_set", "validation_set",
   "training_steps", "validation_steps", "callbacks"]

/-- The guarded weight-folder check each stage performs (Pipeline.py
lines 93-94, 168-169, 302-303): run
`__check_no_weights_in_run_folder` only when `train` and not
`restore_weights`; translate a `sys.exit` into an error. -/
def check_step (p : ModelParams) (env : Env) : List Event × Option PyErr :=
  if p.train && !p.restore_weights then
    let c := check_no_weights_in_run_folder env.folder env.user_input
    let ev := (if c.prompted then [Event.promptUser] else []) ++
      (if c.deleted then [Event.deleteFolder] else [])
    match c.exited with
    | some code => (ev, some (.systemExit code))
    | none => (ev, none)
  else ([], none)

/-- `CenterNetPipeline.run_preprocessing` (Pipeline.py lines 79-104):
merge the params, run the guarded folder check, then build the
preprocessing dataset and return the category dictionary it generates. -/
def run_preprocessing (p : ModelParams) (env : Env) :
    List Event × Except PyErr (List (String × Nat)) :=
  let (ev0, e?) := check_step p env
  match e? with
  | some e => (ev0, .error e)
  | none => (ev0, .ok env.dict_cat_gen)

/-- Result of `CenterNetPipeline.run_detection`: the second component of
the returned pair; `some ()` stands for the bounding-box dictionary
computed from the test predictions. -/
structure DetectionResult where
  bbox_predictions : Option Unit
deriving DecidableEq, Repr

/-- `CenterNetPipeline.run_detection` (Pipeline.py lines 134-280): guarded
folder check; build the detection model with `n_category=1`; parse the
decay and compile; restore weights when requested; when `train` is set,
call `setup_callbacks` and `train` (whose keyword bindings fail against
ModelCenterNet.py, raising `TypeError`) and then evaluate and log the
four losses; optionally run the mini test; predict test bounding boxes
only when `predict_on_test` is set. -/
def run_detection (p : ModelParams) (weights_path : String) (env : Env) :
    List Event × Except PyErr DetectionResult :=
  let (ev0, e?) := check_step p env
  match e? with
  | some e => (ev0, .error e)
  | none =>
    let ev1 := ev0 ++ [Event.buildModel "detection" 1]
    match initDecay p.decay with
    | .error e => (ev1, .error e)
    | .ok decay =>
      let ev2 := ev1 ++ [Event.compileModel (effectiveDecay decay)]
      let restored : Except PyErr Unit :=
        if p.restore_weights then
          (restore_weights env.folder.entries env.isFile p.initial_epoch
            weights_path).map (fun _ => ())
        else .ok ()
      match restored with
      | .error e => (ev2, .error e)
      | .ok _ =>
        let finish : List Event → List Event × Except PyErr DetectionResult :=
          fun ev =>
            let evm := if p.show_prediction_examples then
              ev ++ [Event.predictCall "mini_test"] else ev
            if p.predict_on_test then
              (evm ++ [Event.predictCall "detection_test"], .ok ⟨some ()⟩)
            else
              (evm, .ok ⟨none⟩)
        if p.train then
          if kwargsBindOk setup_callbacks_required []
              pipeline_setup_callbacks_kwargs then
            if kwargsBindOk train_required ["augmentation"]
                pipeline_train_kwargs then
              let ev3 := ev2 ++
                [Event.trainCall (step_count env.detection_ts_size p.batch_size)
                  (step_count env.detection_vs_size p.batch_size),
                 Event.evaluateCall (step_count env.detection_vs_size p.batch_size),
                 Event.logLosses ["all_loss", "size_loss", "heatmap_loss",
                   "offset_loss"]]
              finish ev3
            else
              (ev2, .error (.typeError
                "train() got an unexpected keyword argument"))
          else
            (ev2, .error (.typeError
              "setup_callbacks() missing 1 required positional argument: lr"))
        else
          finish ev2

/-- Result of `CenterNetPipeline.run_classification`: the test-crop list
(`test_list`, Pipeline.py lines 343-348) and the returned predictions
(`some ()` stands for the `(n_sample, n_category)` array). -/
structure ClassificationResult where
  test_list : Option (List String)
  predictions : Option Unit
deriving DecidableEq, Repr

/-- `CenterNetPipeline.run_classification` (Pipeline.py lines 282-385):
guarded folder check; build the classification model with
`n_category = len(self.__dict_cat)`; restore weights when requested;
parse the decay and compile; crop the training characters; populate the
test-crop list only when `predict_on_test`; when `train` is set, call
`setup_callbacks` and `train` (keyword bindings fail, `TypeError`);
return predictions when `predict_on_test`, else `None`. -/
def run_classification (p : ModelParams) (dict_cat : List (String × Nat))
    (weights_path : String) (env : Env) :
    List Event × Except PyErr ClassificationResult :=
  let (ev0, e?) := check_step p env
  match e? with
  | some e => (ev0, .error e)
  | none =>
    let ev1 := ev0 ++ [Event.buildModel "classification" dict_cat.length]
    let restored : Except PyErr Unit :=
      if p.restore_weights then
        (restore_weights env.folder.entries env.isFile p.initial_epoch
          weights_path).map (fun _ => ())
      else .ok ()
    match restored with
    | .error e => (ev1, .error e)
    | .ok _ =>
      match initDecay p.decay with
      | .error e => (ev1, .error e)
      | .ok decay =>
        let ev2 := ev1 ++ [Event.compileModel (effectiveDecay decay)]
        let _train_list := if p.regenerate_crops_train then
          env.crops_regen_train else env.crops_loaded_train
        let test_list : Option (List String) :=
          if p.predict_on_test then
            some (if p.regenerate_crops_test then env.crops_regen_test
              else env.crops_loaded_test)
          else none
        if p.train then
          if kwargsBindOk setup_callbacks_required []
              pipeline_setup_callbacks_kwargs then
            if kwargsBindOk train_required ["augmentation"]
                pipeline_train_kwargs then
              let ev3 := ev2 ++
                [Event.trainCall
                  (step_count env.classification_ts_size p.batch_size)
                  (step_count env.classification_vs_size p.batch_size)]
              if p.predict_on_test then
                (ev3 ++ [Event.predictCall "classification_test"],
                 .ok ⟨test_list, some ()⟩)
              else
                (ev3, .ok ⟨test_list, none⟩)
            else
              (ev2, .error (.typeError
                "train() got an unexpected keyword argument"))
          else
            (ev2, .error (.typeError
              "setup_callbacks() missing 1 required positional argument: lr"))
        else
          if p.predict_on_test then
            (ev2 ++ [Event.predictCall "classification_test"],
             .ok ⟨test_list, some ()⟩)
          else
            (ev2, .ok ⟨test_list, none⟩)

/-- First-match lookup in a Python-dict association list. -/
def dict_get {α : Type} (d : List (String × α)) (k : String) : Option α :=
  match d with
  | [] => none
  | (k2, v) :: rest => if k2 = k then some v else dict_get rest k

/-- `d[k] = v` on a Python-dict association list: overwrite the existing
binding in place, or append a new one. -/
def dict_set {α : Type} (d : List (String × α)) (k : String) (v : α) :
    List (String × α) :=
  match d with
  | [] => [(k, v)]
  | (k2, v2) :: rest =>
    if k2 = k then (k2, v) :: rest else (k2, v2) :: dict_set rest k v

/-- `d.update(other)` on Python dicts: assign every binding of `other`
into `d`, in order.  This is the in-place merge
`model_params.update(self.__dataset_params)` each stage performs once
(Pipeline.py lines 90, 111, 164, 298), with `d` the stage-specific
`model_params` and `other` the base `dataset_params`. -/
def dict_update {α : Type} (d other : List (String × α)) :
    List (String × α) :=
  other.foldl (fun acc kv => dict_set acc kv.1 kv.2) d

/-- Whether an embedded run ended in a raised exception. -/
def isError {α : Type} : Except PyErr α → Bool
  | .error _ => true
  | .ok _ => false

/-- The detection claim's frame on the returned pair: whenever the run
returns, its bounding-box component is `None`. -/
def bbox_none_unless_error : Except PyErr DetectionResult → Bool
  | .ok r => r.bbox_predictions.isNone
  | .error _ => true

/-- The classification claim's frame on the returned value: whenever the
run returns, the test-crop list was never populated and no predictions
are returned. -/
def classification_none_unless_error : Except PyErr ClassificationResult → Bool
  | .ok c => c.test_list.isNone && c.predictions.isNone
  | .error _ => true

/-- Event sanity for a mode: every model-build event in a trace uses the
given mode and category count. -/
def buildEventsOk (mode : String) (n : Nat) : Event → Bool
  | .buildModel m k => m == mode && k == n
  | _ => true

/-- Whether an event is a call to `ModelCenterNet.train`. -/
def Event.isTrainCall : Event → Bool
  | .trainCall _ _ => true
  | _ => false

/-- Whether an event comes from the weight-folder check. -/
def checkEvent : Event → Bool
  | .promptUser => true
  | .deleteFolder => true
  | _ => false

/-- Whether an event is one a stage emits after its folder check: a model
build with the given mode and category count, a compile, or a predict. -/
def stageTailEvent (mode : String) (n : Nat) : Event → Bool
  | .buildModel m k => m == mode && k == n
  | .compileModel _ => true
  | .predictCall _ => true
  | _ => false

/-! ## Helper lemmas -/

lemma setup_callbacks_bind_eval :
    kwargsBindOk setup_callbacks_required [] pipeline_setup_callbacks_kwargs
      = false := by decide

lemma promptUser_check_step (p : ModelParams) (env : Env) :
    Event.promptUser ∈ (check_step p env).1 ↔
      p.train = true ∧ p.restore_weights = false ∧
        env.folder.nonemptyDir = true := by
  unfold check_step
  rcases ht : p.train <;> rcases hr : p.restore_weights <;>
    rcases hf : env.folder with _ | es <;>
      simp [check_no_weights_in_run_folder, FolderState.nonemptyDir]
  · rcases es with _ | ⟨a, es⟩
    · simp
    · by_cases hin : env.user_input = "y" ∨ env.user_input = "Y" ∨
          env.user_input = "yes" ∨ env.user_input = "ok" <;>
        simp [hin]

lemma check_step_events (p : ModelParams) (env : Env) :
    ∀ ev ∈ (check_step p env).1,
      ev = Event.promptUser ∨ ev = Event.deleteFolder := by
  unfold check_step
  rcases ht : p.train <;> rcases hr : p.restore_weights <;>
    rcases hf : env.folder with _ | es <;>
      simp [check_no_weights_in_run_folder]
  rcases es with _ | ⟨a, es⟩
  · simp
  · by_cases hin : env.user_input = "y" ∨ env.user_input = "Y" ∨
        env.user_input = "yes" ∨ env.user_input = "ok" <;>
      simp [hin]

lemma promptUser_run_detection (p : ModelParams) (wp : String) (env : Env) :
    Event.promptUser ∈ (run_detection p wp env).1 ↔
      Event.promptUser ∈ (check_step p env).1 := by
  unfold run_detection
  rcases hc : check_step p env with ⟨ev0, e?⟩
  rcases e? with _ | e
  · dsimp only
    rcases hd : initDecay p.decay with e | d
    · simp
    · dsimp only
      rcases hrw : (if p.restore_weights then
          (restore_weights env.folder.entries env.isFile p.initial_epoch
            wp).map (fun _ => ()) else Except.ok ()) with e2 | u
      · simp
      · by_cases ht : p.train <;>
          simp [ht, setup_callbacks_bind_eval] <;>
          by_cases hs : p.show_prediction_examples <;>
          by_cases hp : p.predict_on_test <;>
          simp [hs, hp]
  · simp


lemma check_step_all (p : ModelParams) (env : Env) :
    (check_step p env).1.all checkEvent = true := by
  rw [List.all_eq_true]
  intro ev hev
  rcases check_step_events p env ev hev with h | h <;> simp [h, checkEvent]

lemma all_orb_left {f g : Event → Bool} {l : List Event}
    (h : l.all f = true) : l.all (fun ev => f ev || g ev) = true := by
  rw [List.all_eq_true] at h ⊢
  intro ev hev
  simp [h ev hev]

lemma run_detection_all (p : ModelParams) (wp : String) (env : Env) :
    (run_detection p wp env).1.all
      (fun ev => checkEvent ev || stageTailEvent "detection" 1 ev) = true := by
  have h0 : (check_step p env).1.all
      (fun ev => checkEvent ev || stageTailEvent "detection" 1 ev) = true :=
    all_orb_left (check_step_all p env)
  unfold run_detection
  rcases hc : check_step p env with ⟨ev0, e?⟩
  rw [hc] at h0
  have h0' : ∀ x ∈ ev0, checkEvent x = true ∨
      stageTailEvent "detection" 1 x = true := by
    intro x hx
    have hx2 := List.all_eq_true.mp h0 x hx
    simpa using hx2
  rcases e? with _ | e
  · dsimp only
    rcases hd : initDecay p.decay with e | d
    · simp [List.all_append, stageTailEvent] <;> exact h0'
    · dsimp only
      rcases hrw : (if p.restore_weights then
          (restore_weights env.folder.entries env.isFile p.initial_epoch
            wp).map (fun _ => ()) else Except.ok ()) with e2 | u
      · simp [List.all_append, stageTailEvent] <;> exact h0'
      · by_cases ht : p.train <;>
          by_cases hs : p.show_prediction_examples <;>
          by_cases hp : p.predict_on_test <;>
          simp [ht, hs, hp, setup_callbacks_bind_eval, List.all_append,
            stageTailEvent] <;>
          exact h0'
  · simp [List.all_eq_true] <;> exact h0'

lemma run_detection_build_mem (p : ModelParams) (wp : String) (env : Env)
    (h : (check_step p env).2 = none) :
    Event.buildModel "detection" 1 ∈ (run_detection p wp env).1 := by
  unfold run_detection
  rcases hc : check_step p env with ⟨ev0, e?⟩
  rw [hc] at h
  rcases e? with _ | e
  · dsimp only
    rcases hd : initDecay p.decay with e | d
    · simp
    · dsimp only
      rcases hrw : (if p.restore_weights then
          (restore_weights env.folder.entries env.isFile p.initial_epoch
            wp).map (fun _ => ()) else Except.ok ()) with e2 | u
      · simp
      · by_cases ht : p.train <;>
          by_cases hs : p.show_prediction_examples <;>
          by_cases hp : p.predict_on_test <;>
          simp [ht, hs, hp, setup_callbacks_bind_eval]
  · simp at h

lemma run_detection_train_isError (p : ModelParams) (wp : String) (env : Env)
    (ht : p.train = true) :
    isError (run_detection p wp env).2 = true := by
  unfold run_detection
  rcases hc : check_step p env with ⟨ev0, e?⟩
  rcases e? with _ | e
  · dsimp only
    rcases hd : initDecay p.decay with e | d
    · simp [isError]
    · dsimp only
      rcases hrw : (if p.restore_weights then
          (restore_weights env.folder.entries env.isFile p.initial_epoch
            wp).map (fun _ => ()) else Except.ok ()) with e2 | u
      · simp [isError]
      · simp [ht, setup_callbacks_bind_eval, isError]
  · simp [isError]

lemma run_detection_bbox_none (p : ModelParams) (wp : String) (env : Env)
    (hp : p.predict_on_test = false) :
    bbox_none_unless_error (run_detection p wp env).2 = true := by
  unfold run_detection
  rcases hc : check_step p env with ⟨ev0, e?⟩
  rcases e? with _ | e
  · dsimp only
    rcases hd : initDecay p.decay with e | d
    · simp [bbox_none_unless_error]
    · dsimp only
      rcases hrw : (if p.restore_weights then
          (restore_weights env.folder.entries env.isFile p.initial_epoch
            wp).map (fun _ => ()) else Except.ok ()) with e2 | u
      · simp [bbox_none_unless_error]
      · by_cases ht : p.train <;>
          by_cases hs : p.show_prediction_examples <;>
          simp [ht, hs, hp, setup_callbacks_bind_eval, bbox_none_unless_error]
  · simp [bbox_none_unless_error]

lemma run_detection_compile_mem (p : ModelParams) (wp : String) (env : Env)
    (d : Option PyFloatVal) (hd : initDecay p.decay = .ok d)
    (h : (check_step p env).2 = none) :
    Event.compileModel (effectiveDecay d) ∈ (run_detection p wp env).1 := by
  unfold run_detection
  rcases hc : check_step p env with ⟨ev0, e?⟩
  rw [hc] at h
  rcases e? with _ | e
  · dsimp only
    rw [hd]
    dsimp only
    rcases hrw : (if p.restore_weights then
        (restore_weights env.folder.entries env.isFile p.initial_epoch
          wp).map (fun _ => ()) else Except.ok ()) with e2 | u
    · simp
    · by_cases ht : p.train <;>
        by_cases hs : p.show_prediction_examples <;>
        by_cases hp : p.predict_on_test <;>
        simp [ht, hs, hp, setup_callbacks_bind_eval]
  · simp at h

lemma promptUser_run_preprocessing (p : ModelParams) (env : Env) :
    Event.promptUser ∈ (run_preprocessing p env).1 ↔
      Event.promptUser ∈ (check_step p env).1 := by
  unfold run_preprocessing
  rcases hc : check_step p env with ⟨ev0, e?⟩
  rcases e? with _ | e <;> simp

lemma promptUser_run_classification (p : ModelParams)
    (dict_cat : List (String × Nat)) (wp : String) (env : Env) :
    Event.promptUser ∈ (run_classification p dict_cat wp env).1 ↔
      Event.promptUser ∈ (check_step p env).1 := by
  unfold run_classification
  rcases hc : check_step p env with ⟨ev0, e?⟩
  rcases e? with _ | e
  · dsimp only
    rcases hrw : (if p.restore_weights then
        (restore_weights env.folder.entries env.isFile p.initial_epoch
          wp).map (fun _ => ()) else Except.ok ()) with e2 | u
    · simp
    · dsimp only
      rcases hd : initDecay p.decay with e | d
      · simp
      · by_cases ht : p.train <;>
          by_cases hp : p.predict_on_test <;>
          simp [ht, hp, setup_callbacks_bind_eval]
  · simp

lemma run_classification_all (p : ModelParams)
    (dict_cat : List (String × Nat)) (wp : String) (env : Env) :
    (run_classification p dict_cat wp env).1.all
      (fun ev => checkEvent ev ||
        stageTailEvent "classification" dict_cat.length ev) = true := by
  have h0 : (check_step p env).1.all
      (fun ev => checkEvent ev ||
        stageTailEvent "classification" dict_cat.length ev) = true :=
    all_orb_left (check_step_all p env)
  unfold run_classification
  rcases hc : check_step p env with ⟨ev0, e?⟩
  rw [hc] at h0
  have h0' : ∀ x ∈ ev0, checkEvent x = true ∨
      stageTailEvent "classification" dict_cat.length x = true := by
    intro x hx
    have hx2 := List.all_eq_true.mp h0 x hx
    simpa using hx2
  rcases e? with _ | e
  · dsimp only
    rcases hrw : (if p.restore_weights then
        (restore_weights env.folder.entries env.isFile p.initial_epoch
          wp).map (fun _ => ()) else Except.ok ()) with e2 | u
    · simp [List.all_append, stageTailEvent] <;> exact h0'
    · dsimp only
      rcases hd : initDecay p.decay with e | d
      · simp [List.all_append, stageTailEvent] <;> exact h0'
      · by_cases ht : p.train <;>
          by_cases hp : p.predict_on_test <;>
          simp [ht, hp, setup_callbacks_bind_eval, List.all_append,
            stageTailEvent] <;>
          exact h0'
  · simp [List.all_eq_true] <;> exact h0'

lemma run_classification_build_mem (p : ModelParams)
    (dict_cat : List (String × Nat)) (wp : String) (env : Env)
    (h : (check_step p env).2 = none) :
    Event.buildModel "classification" dict_cat.length ∈
      (run_classification p dict_cat wp env).1 := by
  unfold run_classification
  rcases hc : check_step p env with ⟨ev0, e?⟩
  rw [hc] at h
  rcases e? with _ | e
  · dsimp only
    rcases hrw : (if p.restore_weights then
        (restore_weights env.folder.entries env.isFile p.initial_epoch
          wp).map (fun _ => ()) else Except.ok ()) with e2 | u
    · simp
    · dsimp only
      rcases hd : initDecay p.decay with e | d
      · simp
      · by_cases ht : p.train <;>
          by_cases hp : p.predict_on_test <;>
          simp [ht, hp, setup_callbacks_bind_eval]
  · simp at h

lemma run_classification_result_none (p : ModelParams)
    (dict_cat : List (String × Nat)) (wp : String) (env : Env)
    (hp : p.predict_on_test = false) :
    classification_none_unless_error
      (run_classification p dict_cat wp env).2 = true := by
  unfold run_classification
  rcases hc : check_step p env with ⟨ev0, e?⟩
  rcases e? with _ | e
  · dsimp only
    rcases hrw : (if p.restore_weights then
        (restore_weights env.folder.entries env.isFile p.initial_epoch
          wp).map (fun _ => ()) else Except.ok ()) with e2 | u
    · simp [classification_none_unless_error]
    · dsimp only
      rcases hd : initDecay p.decay with e | d
      · simp [classification_none_unless_error]
      · by_cases ht : p.train <;>
          simp [ht, hp, setup_callbacks_bind_eval,
            classification_none_unless_error]
  · simp [classification_none_unless_error]

lemma run_classification_compile_mem (p : ModelParams)
    (dict_cat : List (String × Nat)) (wp : String) (env : Env)
    (d : Option PyFloatVal) (hd : initDecay p.decay = .ok d)
    (hr : p.restore_weights = false)
    (h : (check_step p env).2 = none) :
    Event.compileModel (effectiveDecay d) ∈
      (run_classification p dict_cat wp env).1 := by
  unfold run_classification
  rcases hc : check_step p env with ⟨ev0, e?⟩
  rw [hc] at h
  rcases e? with _ | e
  · dsimp only
    rw [hr]
    simp only [Bool.false_eq_true, if_false]
    rw [hd]
    by_cases ht : p.train <;>
      by_cases hp : p.predict_on_test <;>
      simp [ht, hp, setup_callbacks_bind_eval]
  · simp at h

lemma all_imp {f g : Event → Bool} {l : List Event}
    (h : l.all f = true) (himp : ∀ ev, f ev = true → g ev = true) :
    l.all g = true := by
  rw [List.all_eq_true] at h ⊢
  exact fun ev hev => himp ev (h ev hev)

lemma run_preprocessing_ok (p : ModelParams) (env : Env)
    (h : (check_step p env).2 = none) :
    (run_preprocessing p env).2 = .ok env.dict_cat_gen := by
  unfold run_preprocessing
  rcases hc : check_step p env with ⟨ev0, e?⟩
  rw [hc] at h
  rcases e? with _ | e
  · rfl
  · simp at h

lemma dict_get_set_self {α : Type} (d : List (String × α)) (k : String)
    (v : α) : dict_get (dict_set d k v) k = some v := by
  induction d with
  | nil => simp [dict_set, dict_get]
  | cons kv rest ih =>
    rcases kv with ⟨k2, v2⟩
    by_cases h : k2 = k <;> simp [dict_set, dict_get, h, ih]

lemma dict_get_set_ne {α : Type} (d : List (String × α)) (k k2 : String)
    (v : α) (h : k2 ≠ k) : dict_get (dict_set d k2 v) k = dict_get d k := by
  induction d with
  | nil => simp [dict_set, dict_get, h]
  | cons kv rest ih =>
    rcases kv with ⟨k3, v3⟩
    by_cases h3 : k3 = k2
    · subst h3
      simp [dict_set, dict_get, h]
    · simp [dict_set, dict_get, h3, ih]

lemma dict_get_eq_none_of_not_mem {α : Type} (d : List (String × α))
    (k : String) (h : k ∉ d.map Prod.fst) : dict_get d k = none := by
  induction d with
  | nil => simp [dict_get]
  | cons kv rest ih =>
    rcases kv with ⟨k2, v2⟩
    have h2 : ¬(k = k2 ∨ k ∈ rest.map Prod.fst) := by
      simpa [List.mem_cons] using h
    push_neg at h2
    have hne : ¬k2 = k := fun he => h2.1 he.symm
    simp [dict_get, hne, ih h2.2]

lemma dict_update_get {α : Type}
    (model_params dataset_params : List (String × α)) (k : String)
    (hnodup : (dataset_params.map Prod.fst).Nodup) :
    dict_get (dict_update model_params dataset_params) k =
      (dict_get dataset_params k).or (dict_get model_params k) := by
  induction dataset_params generalizing model_params with
  | nil => simp [dict_update, dict_get]
  | cons kv rest ih =>
    rcases kv with ⟨k1, v1⟩
    have hstep : dict_update model_params ((k1, v1) :: rest) =
        dict_update (dict_set model_params k1 v1) rest := rfl
    rw [hstep]
    rw [List.map_cons] at hnodup
    have hnd := List.nodup_cons.mp hnodup
    rw [ih (dict_set model_params k1 v1) hnd.2]
    by_cases h1 : k1 = k
    · subst h1
      have hrest : dict_get rest k1 = none :=
        dict_get_eq_none_of_not_mem rest k1 hnd.1
      simp [dict_get, hrest, dict_get_set_self]
    · simp [dict_get, fun he : k1 = k => h1 he, dict_get_set_ne _ _ _ _ h1]

/-! ## Claims -/

/-- C2: for every `batch_size > 0` and `dataset_size ≥ 0` the training,
validation and evaluation step count used by the pipeline equals
`floor(dataset_size / batch_size) + 1` — an unconditional extra step, not
ceiling division: `dataset_size = 0` gives 1 step, `dataset_size =
batch_size` gives 2 and `dataset_size = 3 * batch_size` gives 4. -/
theorem claim_C2_step_count_formula (dataset_size batch_size : Nat)
    (h : 0 < batch_size) :
    step_count dataset_size batch_size = dataset_size / batch_size + 1 ∧
    step_count 0 batch_size = 1 ∧
    step_count batch_size batch_size = 2 ∧
    step_count (3 * batch_size) batch_size = 4 := by
  refine ⟨rfl, ?_, ?_, ?_⟩
  · simp [step_count]
  · simp [step_count, Nat.div_self h]
  · simp [step_count, Nat.mul_div_cancel _ h]

theorem claim_C2_step_count_formula_witness :
    step_count 5 2 = 5 / 2 + 1 ∧ step_count 0 2 = 1 ∧
    step_count 2 2 = 2 ∧ step_count (3 * 2) 2 = 4 :=
  claim_C2_step_count_formula 5 2 (by decide)

/-- C7: `ModelCenterNet.evaluate` with steps equal to 0 skips the
framework call, emits the warning and returns `None`; with any other
steps value it returns the framework's evaluation result. -/
theorem claim_C7_evaluate_empty_set {α : Type}
    (frameworkEval : Option Nat → α) (steps : Option Nat) :
    (steps = some 0 → evaluate frameworkEval steps = (none, true)) ∧
    (steps ≠ some 0 →
      evaluate frameworkEval steps = (some (frameworkEval steps), false)) := by
  constructor
  · rintro rfl
    rfl
  · intro h
    simp [evaluate, h]

theorem claim_C7_evaluate_empty_set_witness :
    evaluate (fun _ => ([] : List Nat)) (some 0) = (none, true) ∧
    evaluate (fun _ => ([] : List Nat)) (some 3) = (some [], false) ∧
    evaluate (fun _ => ([] : List Nat)) none = (some [], false) :=
  ⟨(claim_C7_evaluate_empty_set _ (some 0)).1 rfl,
   (claim_C7_evaluate_empty_set _ (some 3)).2 (by simp),
   (claim_C7_evaluate_empty_set _ none).2 (by simp)⟩

/-- C10: on an affirmative confirmation the cleanup removes the whole
weights folder (`shutil.rmtree`), leaving the directory itself missing —
not merely emptied and not recreated — so it no longer exists when the
stage goes on to train. -/
theorem claim_C10_rmtree_removes_folder (entries : List String)
    (input : String) (hne : entries ≠ [])
    (hin : input ∈ (["y", "Y", "yes", "ok"] : List String)) :
    check_no_weights_in_run_folder (.dir entries) input =
      ⟨.missing, true, true, none⟩ ∧
    (check_no_weights_in_run_folder (.dir entries) input).folder ≠
      FolderState.dir [] := by
  have h : check_no_weights_in_run_folder (.dir entries) input =
      ⟨.missing, true, true, none⟩ := by
    simp [check_no_weights_in_run_folder, hin, List.length_eq_zero, hne]
  refine ⟨h, ?_⟩
  rw [h]
  simp

theorem claim_C10_rmtree_removes_folder_witness :
    check_no_weights_in_run_folder (.dir ["weights.01-0.50.hdf5"]) "y" =
      ⟨.missing, true, true, none⟩ ∧
    (check_no_weights_in_run_folder
      (.dir ["weights.01-0.50.hdf5"]) "y").folder ≠ FolderState.dir [] :=
  claim_C10_rmtree_removes_folder _ _ (by decide) (by decide)

/-- C4: restore selects a file whose name carries the two-digit
zero-padded epoch of `initial_epoch`: any successful restore returns a
folder entry matching `weights.<epoch>-*.hdf5` that is a regular file;
on the folder `[weights.05-0.23.hdf5]` epoch 5 selects exactly that
file, epoch 7 fails fast with an assertion error carrying the expected
pattern, and a matched path that is not a regular file also fails fast. -/
theorem claim_C4_restore_selects_epoch_file :
    (∀ (entries : List String) (isFile : String → Bool) (ep : Nat)
        (path name : String),
      restore_weights entries isFile ep path = .ok name →
        name ∈ entries ∧ matches_weights_glob ep name = true ∧
        isFile (path ++ "/" ++ name) = true) ∧
    init_epoch_str 5 = "05" ∧
    weights_file_glob 7 = "weights.07-*.hdf5" ∧
    restore_weights ["weights.05-0.23.hdf5"] (fun _ => true) 5 "w" =
      .ok "weights.05-0.23.hdf5" ∧
    restore_weights ["weights.05-0.23.hdf5"] (fun _ => true) 7 "w" =
      .error (.assertionError
        "ERR: No weights file match provided name w/weights.07-*.hdf5") ∧
    restore_weights ["weights.05-0.23.hdf5"] (fun _ => false) 5 "w" =
      .error (.assertionError
        "ERR: Weight file in path w/weights.05-0.23.hdf5 seems not to be a file") := by
  refine ⟨?_, by decide, by decide, by rfl, by rfl, by rfl⟩
  intro entries isFile ep path name hok
  unfold restore_weights at hok
  rcases hlf : entries.filter (matches_weights_glob ep) with _ | ⟨f, rest⟩
  · rw [hlf] at hok
    simp at hok
  · rw [hlf] at hok
    dsimp only at hok
    by_cases hf : isFile (path ++ "/" ++ f)
    · rw [if_pos hf] at hok
      have hname : f = name := by simpa using hok
      subst hname
      have hmem : f ∈ entries.filter (matches_weights_glob ep) := by
        rw [hlf]
        exact List.mem_cons_self _ _
      have h2 := List.mem_filter.mp hmem
      exact ⟨h2.1, h2.2, hf⟩
    · rw [if_neg hf] at hok
      simp at hok

theorem claim_C4_restore_selects_epoch_file_witness :
    "weights.05-0.23.hdf5" ∈ ["weights.05-0.23.hdf5"] ∧
    matches_weights_glob 5 "weights.05-0.23.hdf5" = true ∧
    (fun _ => true : String → Bool) ("w" ++ "/" ++ "weights.05-0.23.hdf5")
      = true :=
  claim_C4_restore_selects_epoch_file.1 ["weights.05-0.23.hdf5"]
    (fun _ => true) 5 "w" "weights.05-0.23.hdf5" (by rfl)

/-- C1: every fresh training run (`train` and not `restore_weights`) in
the preprocessing, detection and classification stages prompts exactly
when the weights folder is an existing non-empty directory; the
affirmative answers are exactly `y`, `Y`, `yes`, `ok`; an affirmative
answer deletes the folder contents and proceeds, while any other answer
exits via `sys.exit(0)` without deleting anything. -/
theorem claim_C1_fresh_training_prompt (folder : FolderState)
    (input : String) (entries : List String) (p : ModelParams)
    (dc : List (String × Nat)) (wp : String) (env : Env) :
    ((check_no_weights_in_run_folder folder input).prompted
        = folder.nonemptyDir) ∧
    (entries ≠ [] → input ∈ (["y", "Y", "yes", "ok"] : List String) →
      check_no_weights_in_run_folder (.dir entries) input =
        ⟨.missing, true, true, none⟩) ∧
    (entries ≠ [] → input ∉ (["y", "Y", "yes", "ok"] : List String) →
      check_no_weights_in_run_folder (.dir entries) input =
        ⟨.dir entries, true, false, some 0⟩) ∧
    (Event.promptUser ∈ (run_preprocessing p env).1 ↔
      p.train = true ∧ p.restore_weights = false ∧
        env.folder.nonemptyDir = true) ∧
    (Event.promptUser ∈ (run_detection p wp env).1 ↔
      p.train = true ∧ p.restore_weights = false ∧
        env.folder.nonemptyDir = true) ∧
    (Event.promptUser ∈ (run_classification p dc wp env).1 ↔
      p.train = true ∧ p.restore_weights = false ∧
        env.folder.nonemptyDir = true) := by
  refine ⟨?_, ?_, ?_, ?_, ?_, ?_⟩
  · cases folder with
    | missing => simp [check_no_weights_in_run_folder, FolderState.nonemptyDir]
    | dir es =>
      by_cases hes : es = []
      · simp [check_no_weights_in_run_folder, FolderState.nonemptyDir, hes]
      · by_cases hin : input ∈ (["y", "Y", "yes", "ok"] : List String) <;>
          simp [check_no_weights_in_run_folder, FolderState.nonemptyDir,
            List.length_eq_zero, hes, hin]
  · intro hne hin
    simp [check_no_weights_in_run_folder, hin, List.length_eq_zero, hne]
  · intro hne hnin
    simp [check_no_weights_in_run_folder, hnin, List.length_eq_zero, hne]
  · rw [promptUser_run_preprocessing]
    exact promptUser_check_step p env
  · rw [promptUser_run_detection]
    exact promptUser_check_step p env
  · rw [promptUser_run_classification]
    exact promptUser_check_step p env

theorem claim_C1_fresh_training_prompt_witness :
    check_no_weights_in_run_folder (.dir ["old.hdf5"]) "yes" =
      ⟨.missing, true, true, none⟩ ∧
    check_no_weights_in_run_folder (.dir ["old.hdf5"]) "no" =
      ⟨.dir ["old.hdf5"], true, false, some 0⟩ :=
  have h := claim_C1_fresh_training_prompt (.dir ["old.hdf5"]) "no"
    ["old.hdf5"]
    ⟨true, false, false, false, false, false, 0, 1, 1, some "0.0"⟩ [] "w"
    ⟨.dir ["old.hdf5"], "no", fun _ => true, [], 0, 0, 0, 0, [], [], [], []⟩
  have h2 := claim_C1_fresh_training_prompt (.dir ["old.hdf5"]) "yes"
    ["old.hdf5"]
    ⟨true, false, false, false, false, false, 0, 1, 1, some "0.0"⟩ [] "w"
    ⟨.dir ["old.hdf5"], "no", fun _ => true, [], 0, 0, 0, 0, [], [], [], []⟩
  ⟨h2.2.1 (by decide) (by decide), h.2.2.1 (by decide) (by decide)⟩

/-- C5: with `predict_on_test = false`, whenever `run_detection` returns
its bounding-box component is `None`, and whenever `run_classification`
returns its test-crop list was never populated and it returns `None`
instead of predictions. -/
theorem claim_C5_predict_on_test_false (p : ModelParams) (wp : String)
    (dc : List (String × Nat)) (env : Env)
    (hp : p.predict_on_test = false) :
    bbox_none_unless_error (run_detection p wp env).2 = true ∧
    classification_none_unless_error
      (run_classification p dc wp env).2 = true :=
  ⟨run_detection_bbox_none p wp env hp,
   run_classification_result_none p dc wp env hp⟩

theorem claim_C5_predict_on_test_false_witness :
    bbox_none_unless_error (run_detection
      ⟨false, false, false, false, false, false, 0, 1, 1, some "0.01"⟩ "w"
      ⟨.missing, "", fun _ => true, [], 0, 0, 0, 0, [], [], [], []⟩).2
        = true ∧
    classification_none_unless_error (run_classification
      ⟨false, false, false, false, false, false, 0, 1, 1, some "0.01"⟩
      [("a", 0)] "w"
      ⟨.missing, "", fun _ => true, [], 0, 0, 0, 0, [], [], [], []⟩).2
        = true :=
  claim_C5_predict_on_test_false _ "w" _ _ rfl

/-- C6 (code defect): for every configuration with `train = true`,
`run_detection` raises a `TypeError` and never reaches the training
call: Pipeline.py invokes `ModelCenterNet.setup_callbacks` without its
required `lr` parameter and `ModelCenterNet.train` with keyword
arguments (`training_set`, `training_steps`, ...) its signature does not
accept, so the `floor(set_size / batch_size) + 1`-step training,
validation-set evaluation and four-loss logging the claim describes
never execute. -/
theorem claim_C6_training_run_raises_type_error (p : ModelParams)
    (wp : String) (env : Env) (ht : p.train = true) :
    isError (run_detection p wp env).2 = true ∧
    (run_detection p wp env).1.all (fun ev => ! ev.isTrainCall) = true ∧
    kwargsBindOk setup_callbacks_required [] pipeline_setup_callbacks_kwargs
      = false ∧
    kwargsBindOk train_required ["augmentation"] pipeline_train_kwargs
      = false := by
  refine ⟨run_detection_train_isError p wp env ht, ?_, by decide, by decide⟩
  apply all_imp (run_detection_all p wp env)
  intro ev hev
  cases ev <;> simp_all [checkEvent, stageTailEvent, Event.isTrainCall]

theorem claim_C6_training_run_raises_type_error_witness :
    isError (run_detection
      ⟨true, false, false, false, false, false, 0, 1, 1, some "0.0"⟩ "w"
      ⟨.missing, "", fun _ => true, [], 0, 0, 0, 0, [], [], [], []⟩).2
        = true ∧
    ((run_detection
      ⟨true, false, false, false, false, false, 0, 1, 1, some "0.0"⟩ "w"
      ⟨.missing, "", fun _ => true, [], 0, 0, 0, 0, [], [], [], []⟩).1.all
        (fun ev => ! ev.isTrainCall) = true) ∧
    kwargsBindOk setup_callbacks_required [] pipeline_setup_callbacks_kwargs
      = false ∧
    kwargsBindOk train_required ["augmentation"] pipeline_train_kwargs
      = false :=
  claim_C6_training_run_raises_type_error _ "w" _ rfl

/-- C9: every model build in `run_detection` uses mode `detection` with
category count 1 (and one such build occurs whenever the folder check
passes); every model build in `run_classification` uses mode
`classification` with category count equal to the size of the stored
category dictionary (and one such build occurs whenever the folder check
passes); `run_preprocessing` stores exactly the vocabulary its dataset
generates. -/
theorem claim_C9_category_counts (p : ModelParams) (wp : String)
    (dc : List (String × Nat)) (env : Env) :
    ((run_detection p wp env).1.all (buildEventsOk "detection" 1) = true) ∧
    ((check_step p env).2 = none →
      Event.buildModel "detection" 1 ∈ (run_detection p wp env).1) ∧
    ((run_classification p dc wp env).1.all
      (buildEventsOk "classification" dc.length) = true) ∧
    ((check_step p env).2 = none →
      Event.buildModel "classification" dc.length ∈
        (run_classification p dc wp env).1) ∧
    ((check_step p env).2 = none →
      (run_preprocessing p env).2 = .ok env.dict_cat_gen) := by
  refine ⟨?_, run_detection_build_mem p wp env, ?_,
    run_classification_build_mem p dc wp env, run_preprocessing_ok p env⟩
  · apply all_imp (run_detection_all p wp env)
    intro ev hev
    cases ev <;> simp_all [checkEvent, stageTailEvent, buildEventsOk]
  · apply all_imp (run_classification_all p dc wp env)
    intro ev hev
    cases ev <;> simp_all [checkEvent, stageTailEvent, buildEventsOk]

theorem claim_C9_category_counts_witness :
    ((run_detection
      ⟨false, false, false, false, false, false, 0, 1, 1, some "0.01"⟩ "w"
      ⟨.missing, "", fun _ => true, [("a", 0), ("b", 1)], 0, 0, 0, 0, [],
        [], [], []⟩).1.all (buildEventsOk "detection" 1) = true) ∧
    (Event.buildModel "detection" 1 ∈ (run_detection
      ⟨false, false, false, false, false, false, 0, 1, 1, some "0.01"⟩ "w"
      ⟨.missing, "", fun _ => true, [("a", 0), ("b", 1)], 0, 0, 0, 0, [],
        [], [], []⟩).1) ∧
    (Event.buildModel "classification" 2 ∈ (run_classification
      ⟨false, false, false, false, false, false, 0, 1, 1, some "0.01"⟩
      [("a", 0), ("b", 1)] "w"
      ⟨.missing, "", fun _ => true, [("a", 0), ("b", 1)], 0, 0, 0, 0, [],
        [], [], []⟩).1) ∧
    ((run_preprocessing
      ⟨false, false, false, false, false, false, 0, 1, 1, some "0.01"⟩
      ⟨.missing, "", fun _ => true, [("a", 0), ("b", 1)], 0, 0, 0, 0, [],
        [], [], []⟩).2 = .ok [("a", 0), ("b", 1)]) :=
  have h := claim_C9_category_counts
    ⟨false, false, false, false, false, false, 0, 1, 1, some "0.01"⟩ "w"
    [("a", 0), ("b", 1)]
    ⟨.missing, "", fun _ => true, [("a", 0), ("b", 1)], 0, 0, 0, 0, [],
      [], [], []⟩
  ⟨h.1, h.2.1 rfl, h.2.2.2.1 rfl, h.2.2.2.2 rfl⟩

/-- C3 counterexample: with the `decay` key missing, `run_detection` does
not default the decay to 0.0 — the uncaught dictionary lookup raises a
`KeyError` that propagates to the caller. -/
theorem claim_C3_missing_decay_counterexample :
    (run_detection ⟨false, false, false, false, false, false, 0, 1, 1, none⟩
      "w" ⟨.missing, "", fun _ => true, [], 0, 0, 0, 0, [], [], [], []⟩).2
      = .error (.keyError "decay") ∧
    Except.error (PyErr.keyError "decay") ≠
      (Except.ok ⟨none⟩ : Except PyErr DetectionResult) := by
  exact ⟨rfl, by simp⟩

/-- C3 amended: the decay string is parsed as a float before compiling;
`"0.01"` yields 0.01 and a non-numeric string (`""`, `"abc"`) yields 0.0
with the `ValueError` caught, but a missing `decay` key raises an
uncaught `KeyError`; whenever parsing succeeds both stages compile with
the parsed (truthiness-defaulted) decay. -/
theorem claim_C3_decay_parsing (p : ModelParams) (wp : String)
    (dc : List (String × Nat)) (env : Env) :
    (initDecay (some "0.01") = .ok (some ⟨1, -2⟩) ∧
      PyFloatVal.toRat ⟨1, -2⟩ = 1 / 100) ∧
    (initDecay (some "") = .ok none ∧ initDecay (some "abc") = .ok none ∧
      PyFloatVal.toRat (effectiveDecay none) = 0) ∧
    initDecay none = .error (.keyError "decay") ∧
    (p.train = false → ∀ d, initDecay p.decay = .ok d →
      Event.compileModel (effectiveDecay d) ∈ (run_detection p wp env).1) ∧
    (p.train = false → p.restore_weights = false →
      ∀ d, initDecay p.decay = .ok d →
        Event.compileModel (effectiveDecay d) ∈
          (run_classification p dc wp env).1) := by
  refine ⟨⟨by decide, by norm_num [PyFloatVal.toRat]⟩,
    ⟨by decide, by decide, by norm_num [PyFloatVal.toRat, effectiveDecay]⟩,
    by decide, ?_, ?_⟩
  · intro htr d hd
    apply run_detection_compile_mem p wp env d hd
    simp [check_step, htr]
  · intro htr hr d hd
    apply run_classification_compile_mem p dc wp env d hd hr
    simp [check_step, htr]

theorem claim_C3_decay_parsing_witness :
    Event.compileModel (effectiveDecay (some ⟨1, -2⟩)) ∈
      (run_detection
        ⟨false, false, false, false, false, false, 0, 1, 1, some "0.01"⟩
        "w" ⟨.missing, "", fun _ => true, [], 0, 0, 0, 0, [], [], [],
          []⟩).1 ∧
    Event.compileModel (effectiveDecay (some ⟨1, -2⟩)) ∈
      (run_classification
        ⟨false, false, false, false, false, false, 0, 1, 1, some "0.01"⟩
        [] "w" ⟨.missing, "", fun _ => true, [], 0, 0, 0, 0, [], [], [],
          []⟩).1 :=
  have h := claim_C3_decay_parsing
    ⟨false, false, false, false, false, false, 0, 1, 1, some "0.01"⟩ "w" []
    ⟨.missing, "", fun _ => true, [], 0, 0, 0, 0, [], [], [], []⟩
  ⟨h.2.2.2.1 rfl (some ⟨1, -2⟩) (by decide),
   h.2.2.2.2 rfl rfl (some ⟨1, -2⟩) (by decide)⟩

/-- C8 counterexample: on a key present in both dictionaries the merge
`model_params.update(dataset_params)` keeps the base dataset value, not
the stage-specific one — here the stage sets `batch_size` to 32, the
base to 64, and the merged value is 64. -/
theorem claim_C8_merge_counterexample :
    dict_get (dict_update [("batch_size", (32 : Nat))]
      [("batch_size", 64)]) "batch_size" = some 64 ∧
    (some (64 : Nat)) ≠ some 32 := by
  exact ⟨by decide, by decide⟩

/-- C8 amended: each stage merges the base dataset configuration into its
stage-specific parameters exactly once, mutating the stage dictionary in
place; on keys present in both, the base dataset value (the `update`
argument) determines the effective value, and keys absent from the base
keep their stage-specific value. -/
theorem claim_C8_merge_semantics {α : Type}
    (model_params dataset_params : List (String × α)) (k : String)
    (hnodup : (dataset_params.map Prod.fst).Nodup) :
    (∀ v, dict_get dataset_params k = some v →
      dict_get (dict_update model_params dataset_params) k = some v) ∧
    (dict_get dataset_params k = none →
      dict_get (dict_update model_params dataset_params) k =
        dict_get model_params k) := by
  have h := dict_update_get model_params dataset_params k hnodup
  constructor
  · intro v hv
    rw [h, hv]
    rfl
  · intro hv
    rw [h, hv]
    rfl

theorem claim_C8_merge_semantics_witness :
    dict_get (dict_update [("batch_size", (32 : Nat)), ("epochs", 5)]
      [("batch_size", 64)]) "batch_size" = some 64 ∧
    dict_get (dict_update [("batch_size", (32 : Nat)), ("epochs", 5)]
      [("batch_size", 64)]) "epochs" =
      dict_get [("batch_size", (32 : Nat)), ("epochs", 5)] "epochs" :=
  ⟨(claim_C8_merge_semantics [("batch_size", 32), ("epochs", 5)]
      [("batch_size", 64)] "batch_size" (by decide)).1 64 (by decide),
   (claim_C8_merge_semantics [("batch_size", 32), ("epochs", 5)]
      [("batch_size", 64)] "epochs" (by decide)).2 (by decide)⟩
